import Mathlib

/-!
Verification of the Luna Health medical-image pipeline against its
natural-language specification.

The development shallowly embeds the inference-time logic of the backend
services:

* `backend/app/services/nail_hemoglobin_service.py`
  (nail detection orchestration, scale-corrected hemoglobin regression,
  anemia risk / severity classification);
* `backend/app/services/pattern_detection_service.py`
  (bounding-box merging);
* `luna-health-app/backend/app/services/vision_analysis.py`
  (image preprocessing, quality assessment, ResNet top-k prediction,
  ensemble confidence);
* `luna-health-app/backend/app/api/endpoints/health_analysis.py`
  (alpha-channel handling in `process_image_safely`).

Python floats are embedded as rationals (`ℚ`): every constant appearing in
the source is exactly representable, and all arithmetic performed by the
embedded code paths is exact on the inputs considered.  Neural-network
outputs (detector boxes, regression raw outputs, softmax probabilities)
are treated as parameters, since they come from opaque learned weights;
everything the repository computes *from* them is embedded faithfully.
-/

namespace LunaHealth

/-! ## Nail hemoglobin service (`nail_hemoglobin_service.py`) -/

/-- A bounding box `(x, y, w, h)` in pixel coordinates, as used by the
pattern-detection service; the nail detector's `(x1, y1, x2, y2)` boxes are
cropped regions abstracted by the `predict` parameter below. -/
structure Box where
  x : ℤ
  y : ℤ
  w : ℤ
  h : ℤ
deriving DecidableEq

/-- Result of `NailDetector.detect_nails` after confidence filtering: the
retained boxes and their scores.  The source sets `num_nails` to
`len(nail_boxes)`, so the count is `boxes.length`. -/
structure NailDetectionResult where
  boxes : List Box
  scores : List ℚ
deriving DecidableEq

/-- `np.mean` over a list of floats: sum divided by length. -/
def npMean (xs : List ℚ) : ℚ := xs.sum / (xs.length : ℚ)

/-- `NailHemoglobinService._assess_anemia_risk`: `'high'` below 120 g/L,
`'moderate'` below 140 g/L, otherwise `'low'`. -/
def assess_anemia_risk (hemoglobin_level : ℚ) : String :=
  if hemoglobin_level < 120 then "high"
  else if hemoglobin_level < 140 then "moderate"
  else "low"

/-- `NailHemoglobinService._assess_severity`: same three-way split as
`_assess_anemia_risk` in the source. -/
def assess_severity (hemoglobin_level : ℚ) : String :=
  if hemoglobin_level < 120 then "high"
  else if hemoglobin_level < 140 then "moderate"
  else "low"

/-- The analysis record returned by
`NailHemoglobinService.analyze_hemoglobin`.  The failure dictionary in the
source carries a `message` and no risk fields, which is modelled with
`Option`. -/
structure HbAnalysisResult where
  success : Bool
  message : Option String
  num_nails_detected : ℕ
  individual_predictions : List ℚ
  average_hemoglobin_g_per_L : ℚ
  anemia_risk : Option String
  severity : Option String
deriving DecidableEq

/-- `NailHemoglobinService.analyze_hemoglobin`, parametrised by the
detection result and by the per-crop hemoglobin predictor
(`HemoglobinPredictor.predict_hemoglobin` applied to the cropped box).
With zero detected nails it returns the explicit failure record; otherwise
it maps the predictor over the boxes, averages with `np.mean`, and attaches
the risk and severity classifications of the average. -/
def analyze_hemoglobin (nails : NailDetectionResult) (predict : Box → ℚ) :
    HbAnalysisResult :=
  if nails.boxes.length = 0 then
    { success := false
      message := some "No nails detected in the image. Please ensure nails are clearly visible."
      num_nails_detected := 0
      individual_predictions := []
      average_hemoglobin_g_per_L := 0
      anemia_risk := none
      severity := none }
  else
    let hemoglobin_predictions := nails.boxes.map predict
    let avg_hemoglobin := npMean hemoglobin_predictions
    { success := true
      message := none
      num_nails_detected := nails.boxes.length
      individual_predictions := hemoglobin_predictions
      average_hemoglobin_g_per_L := avg_hemoglobin
      anemia_risk := some (assess_anemia_risk avg_hemoglobin)
      severity := some (assess_severity avg_hemoglobin) }

/-- `ScaleCorrectedHemoglobinModel.forward`: the base model's raw scalar
output is corrected affinely, `output = raw * scale + shift`. -/
def scale_corrected_forward (scale_factor shift_factor raw_output : ℚ) : ℚ :=
  raw_output * scale_factor + shift_factor

/-- The persisted hemoglobin checkpoint as far as calibration is concerned:
the two optional calibration entries (`'scale_factor' in checkpoint`,
`'shift_factor' in checkpoint`). -/
structure HbCheckpoint where
  scale_factor : Option ℚ
  shift_factor : Option ℚ
deriving DecidableEq

/-- Default scale factor hard-coded in `HemoglobinPredictor._load_model`
(5.5185). -/
def default_scale_factor : ℚ := 55185 / 10000

/-- Default shift factor hard-coded in `HemoglobinPredictor._load_model`
(35.9938). -/
def default_shift_factor : ℚ := 359938 / 10000

/-- Calibration-constant selection in `HemoglobinPredictor._load_model`:
when the checkpoint contains both `scale_factor` and `shift_factor` they
are used; otherwise the hard-coded defaults are installed. -/
def load_scale_shift (checkpoint : HbCheckpoint) : ℚ × ℚ :=
  match checkpoint.scale_factor, checkpoint.shift_factor with
  | some s, some t => (s, t)
  | some _, none => (default_scale_factor, default_shift_factor)
  | none, some _ => (default_scale_factor, default_shift_factor)
  | none, none => (default_scale_factor, default_shift_factor)

/-- `HemoglobinPredictor.predict_hemoglobin` as a function of the loaded
checkpoint and of the base network's raw scalar output on the (transformed)
nail crop: every inference pass goes through the scale-corrected forward. -/
def predict_hemoglobin (checkpoint : HbCheckpoint) (raw_output : ℚ) : ℚ :=
  scale_corrected_forward (load_scale_shift checkpoint).1
    (load_scale_shift checkpoint).2 raw_output

/-! Concrete data for the end-to-end hemoglobin scenario (three detected
regions with per-region predictions 118.0, 125.0, 132.0 g/L). -/

/-- Three distinct detected nail boxes. -/
def exNailBoxes : List Box := [⟨0, 0, 10, 10⟩, ⟨20, 0, 10, 10⟩, ⟨40, 0, 10, 10⟩]

/-- A detection result with the three example boxes. -/
def exNailDetection : NailDetectionResult := ⟨exNailBoxes, [9/10, 9/10, 9/10]⟩

/-- A predictor yielding 118.0, 125.0, 132.0 g/L on the example boxes. -/
def exPredict : Box → ℚ := fun b => if b.x = 0 then 118 else if b.x = 20 then 125 else 132

/-- An empty detection result (no nails found). -/
def exNoNails : NailDetectionResult := ⟨[], []⟩

/-- Claim C2: the aggregate hemoglobin value is the arithmetic mean of the
per-nail predictions; the risk classification of that mean is `high` below
120 g/L, `moderate` in `[120, 140)`, `low` at or above 140 g/L; and for
per-region predictions `[118, 125, 132]` the average is 125 over 3 regions
with risk `moderate`. -/
theorem claim_C2_hemoglobin_average_and_risk
    (nails : NailDetectionResult) (predict : Box → ℚ)
    (hne : nails.boxes ≠ []) :
    (analyze_hemoglobin nails predict).average_hemoglobin_g_per_L
        = npMean (nails.boxes.map predict) ∧
    (analyze_hemoglobin nails predict).anemia_risk
        = some (assess_anemia_risk (npMean (nails.boxes.map predict))) ∧
    (∀ h : ℚ, h < 120 → assess_anemia_risk h = "high") ∧
    (∀ h : ℚ, 120 ≤ h → h < 140 → assess_anemia_risk h = "moderate") ∧
    (∀ h : ℚ, 140 ≤ h → assess_anemia_risk h = "low") ∧
    (analyze_hemoglobin exNailDetection exPredict).average_hemoglobin_g_per_L = 125 ∧
    (analyze_hemoglobin exNailDetection exPredict).num_nails_detected = 3 ∧
    (analyze_hemoglobin exNailDetection exPredict).anemia_risk = some "moderate" := by
  have hlen : nails.boxes.length ≠ 0 := by
    simpa [List.length_eq_zero] using hne
  refine ⟨?_, ?_, ?_, ?_, ?_, ?_, ?_, ?_⟩
  · simp [analyze_hemoglobin, hlen]
  · simp [analyze_hemoglobin, hlen]
  · intro h hh; simp [assess_anemia_risk, hh]
  · intro h h1 h2
    have : ¬ h < 120 := not_lt.mpr h1
    simp [assess_anemia_risk, this, h2]
  · intro h h1
    have h2 : ¬ h < 120 := not_lt.mpr (le_trans (by norm_num) h1)
    have h3 : ¬ h < 140 := not_lt.mpr h1
    simp [assess_anemia_risk, h2, h3]
  · simp [analyze_hemoglobin, exNailDetection, exNailBoxes, exPredict, npMean]
    norm_num
  · simp [analyze_hemoglobin, exNailDetection, exNailBoxes]
  · have havg : npMean (exNailBoxes.map exPredict) = 125 := by
      simp [exNailBoxes, exPredict, npMean]
      norm_num
    simp [analyze_hemoglobin, exNailDetection, exNailBoxes, exPredict, npMean,
      assess_anemia_risk]
    norm_num

/-- Witness for C2: the general part of the theorem instantiated on the
concrete three-nail scenario. -/
theorem claim_C2_witness :
    (analyze_hemoglobin exNailDetection exPredict).average_hemoglobin_g_per_L
        = npMean (exNailDetection.boxes.map exPredict) ∧
    assess_anemia_risk 125 = "moderate" := by
  have h := claim_C2_hemoglobin_average_and_risk exNailDetection exPredict
    (by simp [exNailDetection, exNailBoxes])
  refine ⟨h.1, ?_⟩
  have := h.2.2.2.1 125 (by norm_num) (by norm_num)
  exact this

/-- Claim C3: with zero detected nails, `analyze_hemoglobin` returns an
explicit failure (success is false, with the dedicated message, and an
empty prediction list, so no mean over the empty region set is formed);
the mean/risk path is taken exactly when at least one nail was detected. -/
theorem claim_C3_no_nails_failure
    (nails : NailDetectionResult) (predict : Box → ℚ)
    (h0 : nails.boxes.length = 0) :
    (analyze_hemoglobin nails predict).success = false ∧
    (analyze_hemoglobin nails predict).message
        = some "No nails detected in the image. Please ensure nails are clearly visible." ∧
    (analyze_hemoglobin nails predict).individual_predictions = [] ∧
    (analyze_hemoglobin nails predict).num_nails_detected = 0 ∧
    (∀ (m : NailDetectionResult) (p : Box → ℚ),
      (analyze_hemoglobin m p).success = true ↔ 1 ≤ m.boxes.length) := by
  refine ⟨by simp [analyze_hemoglobin, h0], by simp [analyze_hemoglobin, h0],
    by simp [analyze_hemoglobin, h0], by simp [analyze_hemoglobin, h0], ?_⟩
  intro m p
  by_cases hm : m.boxes.length = 0
  · simp [analyze_hemoglobin, hm]
  · simp [analyze_hemoglobin, hm, Nat.one_le_iff_ne_zero]

/-- Witness for C3: the failure result on the concrete empty detection. -/
theorem claim_C3_witness :
    (analyze_hemoglobin exNoNails exPredict).success = false ∧
    (analyze_hemoglobin exNoNails exPredict).message
        = some "No nails detected in the image. Please ensure nails are clearly visible." := by
  have h := claim_C3_no_nails_failure exNoNails exPredict (by simp [exNoNails])
  exact ⟨h.1, h.2.1⟩

/-- Claim C7: every hemoglobin prediction equals `raw * scale + shift`,
where the scale and shift are the persisted checkpoint values when both are
present and the fixed defaults 5.5185 and 35.9938 otherwise; the correction
is applied on every forward pass. -/
theorem claim_C7_scale_corrected_inference
    (checkpoint : HbCheckpoint) (raw s t : ℚ)
    (hs : checkpoint.scale_factor = some s)
    (ht : checkpoint.shift_factor = some t) :
    predict_hemoglobin checkpoint raw = raw * s + t ∧
    load_scale_shift checkpoint = (s, t) ∧
    (∀ (c : HbCheckpoint) (r : ℚ),
      predict_hemoglobin c r
        = r * (load_scale_shift c).1 + (load_scale_shift c).2) ∧
    (∀ c : HbCheckpoint, c.scale_factor = none ∨ c.shift_factor = none →
      load_scale_shift c = (55185 / 10000, 359938 / 10000)) := by
  refine ⟨?_, ?_, ?_, ?_⟩
  · simp [predict_hemoglobin, scale_corrected_forward, load_scale_shift, hs, ht]
  · simp [load_scale_shift, hs, ht]
  · intro c r
    simp [predict_hemoglobin, scale_corrected_forward]
  · intro c hc
    rcases hc with hc | hc <;>
      rcases h1 : c.scale_factor with _ | s1 <;>
      rcases h2 : c.shift_factor with _ | t1 <;>
      simp_all [load_scale_shift, default_scale_factor, default_shift_factor]

/-- Witness for C7: a checkpoint carrying scale 2 and shift 3 maps raw
output 10 to 23. -/
theorem claim_C7_witness :
    predict_hemoglobin ⟨some 2, some 3⟩ 10 = 10 * 2 + 3 ∧
    load_scale_shift ⟨none, none⟩ = (55185 / 10000, 359938 / 10000) := by
  have h := claim_C7_scale_corrected_inference ⟨some 2, some 3⟩ 10 2 3 rfl rfl
  exact ⟨h.1, h.2.2.2 ⟨none, none⟩ (Or.inl rfl)⟩

/-- Claim C9: `_assess_anemia_risk` and `_assess_severity` are
extensionally equal three-way threshold classifiers (high / moderate /
low), so the `anemia_risk` and `severity` fields of every analysis result
agree. -/
theorem claim_C9_risk_severity_agree :
    (∀ h : ℚ, assess_anemia_risk h = assess_severity h) ∧
    (∀ h : ℚ, h < 120 → assess_severity h = "high") ∧
    (∀ h : ℚ, 120 ≤ h → h < 140 → assess_severity h = "moderate") ∧
    (∀ h : ℚ, 140 ≤ h → assess_severity h = "low") ∧
    (∀ (nails : NailDetectionResult) (predict : Box → ℚ),
      (analyze_hemoglobin nails predict).anemia_risk
        = (analyze_hemoglobin nails predict).severity) := by
  refine ⟨fun h => rfl, ?_, ?_, ?_, ?_⟩
  · intro h hh; simp [assess_severity, hh]
  · intro h h1 h2
    have : ¬ h < 120 := not_lt.mpr h1
    simp [assess_severity, this, h2]
  · intro h h1
    have h2 : ¬ h < 120 := not_lt.mpr (le_trans (by norm_num) h1)
    have h3 : ¬ h < 140 := not_lt.mpr h1
    simp [assess_severity, h2, h3]
  · intro nails predict
    by_cases hm : nails.boxes.length = 0 <;>
      simp [analyze_hemoglobin, hm, assess_anemia_risk, assess_severity]

/-- Witness for C9: the threshold conjuncts evaluated at concrete levels. -/
theorem claim_C9_witness :
    assess_anemia_risk 125 = assess_severity 125 ∧
    assess_severity 100 = "high" ∧ assess_severity 125 = "moderate" ∧
    assess_severity 150 = "low" := by
  have h := claim_C9_risk_severity_agree
  exact ⟨h.1 125, h.2.1 100 (by norm_num), h.2.2.1 125 (by norm_num) (by norm_num),
    h.2.2.2.1 150 (by norm_num)⟩

/-! ## Image quality assessment
(`luna-health-app/backend/app/services/vision_analysis.py`,
`ImageQualityValidator`).  Configuration constants come from the settings
consumed by the validator (`MIN_IMAGE_SIZE = (100, 100)`,
`MAX_IMAGE_DIMENSION = 2048`, `BLUR_THRESHOLD = 100.0`,
`QUALITY_THRESHOLD = 0.7`). -/

/-- Configured Laplacian-variance blur threshold (100.0). -/
def BLUR_THRESHOLD : ℚ := 100

/-- Configured overall-quality threshold (0.7). -/
def QUALITY_THRESHOLD : ℚ := 7 / 10

/-- Configured minimum width (MIN_IMAGE_SIZE[0] = 100). -/
def MIN_IMAGE_WIDTH : ℕ := 100

/-- Configured minimum height (MIN_IMAGE_SIZE[1] = 100). -/
def MIN_IMAGE_HEIGHT : ℕ := 100

/-- Configured maximum dimension (2048). -/
def MAX_IMAGE_DIMENSION : ℕ := 2048

/-- Result record of `ImageQualityValidator.validate_resolution`. -/
structure ResolutionInfo where
  width : ℕ
  height : ℕ
  meets_min_size : Bool
  within_max_dimension : Bool
  aspect_ratio : ℚ
  is_square_like : Bool
deriving DecidableEq

/-- `ImageQualityValidator.validate_resolution` on an image of the given
pixel dimensions. -/
def validate_resolution (width height : ℕ) : ResolutionInfo :=
  { width := width
    height := height
    meets_min_size := decide (MIN_IMAGE_WIDTH ≤ width) && decide (MIN_IMAGE_HEIGHT ≤ height)
    within_max_dimension := decide (width ≤ MAX_IMAGE_DIMENSION) && decide (height ≤ MAX_IMAGE_DIMENSION)
    aspect_ratio := (width : ℚ) / (height : ℚ)
    is_square_like := decide ((3 / 4 : ℚ) ≤ (width : ℚ) / (height : ℚ))
      && decide ((width : ℚ) / (height : ℚ) ≤ 133 / 100) }

/-- Result record of `ImageQualityValidator.assess_quality`; the three
entries of the `quality_factors` dictionary are kept as named fields. -/
structure QualityAssessment where
  blur_score : ℚ
  is_sharp : Bool
  resolution_info : ResolutionInfo
  sharpness_factor : ℚ
  resolution_factor : ℚ
  aspect_ratio_factor : ℚ
  overall_quality : ℚ
  suitable_for_analysis : Bool
deriving DecidableEq

/-- `ImageQualityValidator.assess_quality`, as a function of the Laplacian
blur score of the pixel array (a variance, hence nonnegative for real
images) and the image dimensions.  `overall_quality` is `np.mean` of the
three factors. -/
def assess_quality (blur_score : ℚ) (width height : ℕ) : QualityAssessment :=
  let resolution_info := validate_resolution width height
  let sharpness := min (blur_score / BLUR_THRESHOLD) 1
  let resolution := if resolution_info.meets_min_size then 1 else 1 / 2
  let aspect := if resolution_info.is_square_like then 1 else 4 / 5
  let overall := (sharpness + resolution + aspect) / 3
  { blur_score := blur_score
    is_sharp := decide (BLUR_THRESHOLD < blur_score)
    resolution_info := resolution_info
    sharpness_factor := sharpness
    resolution_factor := resolution
    aspect_ratio_factor := aspect
    overall_quality := overall
    suitable_for_analysis := decide (QUALITY_THRESHOLD ≤ overall) }

/-- Claim C6: `overall_quality` lies in `[0, 1]`; `suitable_for_analysis`
holds exactly when `overall_quality` reaches the configured 0.7 threshold;
`overall_quality` is the unweighted mean of the three factors and is
monotonically non-decreasing in the blur score with dimensions fixed. -/
theorem claim_C6_quality_bounds_iff_monotone
    (blur1 blur2 : ℚ) (width height : ℕ)
    (h0 : 0 ≤ blur1) (h12 : blur1 ≤ blur2) :
    (0 ≤ (assess_quality blur1 width height).overall_quality ∧
      (assess_quality blur1 width height).overall_quality ≤ 1) ∧
    ((assess_quality blur1 width height).suitable_for_analysis = true ↔
      (7 / 10 : ℚ) ≤ (assess_quality blur1 width height).overall_quality) ∧
    (assess_quality blur1 width height).overall_quality
      = ((assess_quality blur1 width height).sharpness_factor
          + (assess_quality blur1 width height).resolution_factor
          + (assess_quality blur1 width height).aspect_ratio_factor) / 3 ∧
    (assess_quality blur1 width height).overall_quality
      ≤ (assess_quality blur2 width height).overall_quality := by
  have hsh1 : (0 : ℚ) ≤ min (blur1 / BLUR_THRESHOLD) 1 := by
    have : (0 : ℚ) ≤ blur1 / BLUR_THRESHOLD := by
      apply div_nonneg h0
      norm_num [BLUR_THRESHOLD]
    exact le_min this (by norm_num)
  have hsh1' : min (blur1 / BLUR_THRESHOLD) 1 ≤ 1 := min_le_right _ _
  have hmono : min (blur1 / BLUR_THRESHOLD) 1 ≤ min (blur2 / BLUR_THRESHOLD) 1 := by
    apply min_le_min _ le_rfl
    apply div_le_div_of_nonneg_right h12
    norm_num [BLUR_THRESHOLD]
  refine ⟨⟨?_, ?_⟩, ?_, rfl, ?_⟩
  · simp only [assess_quality]
    have hres : (0 : ℚ) ≤ (if (validate_resolution width height).meets_min_size
        then 1 else 1 / 2) := by positivity
    have hasp : (0 : ℚ) ≤ (if (validate_resolution width height).is_square_like
        then 1 else 4 / 5) := by positivity
    linarith
  · simp only [assess_quality]
    have hres : (if (validate_resolution width height).meets_min_size
        then (1 : ℚ) else 1 / 2) ≤ 1 := by split <;> norm_num
    have hasp : (if (validate_resolution width height).is_square_like
        then (1 : ℚ) else 4 / 5) ≤ 1 := by split <;> norm_num
    linarith
  · simp [assess_quality, QUALITY_THRESHOLD]
  · simp only [assess_quality]
    linarith

/-- Witness for C6: the concrete assessment of a sharp 200 × 200 image
(blur score 150). -/
theorem claim_C6_witness :
    (0 ≤ (assess_quality 150 200 200).overall_quality ∧
      (assess_quality 150 200 200).overall_quality ≤ 1) ∧
    ((assess_quality 150 200 200).suitable_for_analysis = true ↔
      (7 / 10 : ℚ) ≤ (assess_quality 150 200 200).overall_quality) ∧
    (assess_quality 150 200 200).overall_quality
      ≤ (assess_quality 300 200 200).overall_quality := by
  have h := claim_C6_quality_bounds_iff_monotone 150 300 200 200 (by norm_num)
    (by norm_num)
  exact ⟨h.1, h.2.1, h.2.2.2⟩

/-- Claim C10: `overall_quality` never falls below 13/30, because a failed
minimum-resolution check still contributes 1/2, a failed aspect-ratio
check still contributes 4/5, and the sharpness factor is bounded below by
0 for a nonnegative blur score. -/
theorem claim_C10_quality_floor
    (blur_score : ℚ) (width height : ℕ) (h0 : 0 ≤ blur_score) :
    ((validate_resolution width height).meets_min_size = false →
      (assess_quality blur_score width height).resolution_factor = 1 / 2) ∧
    ((validate_resolution width height).is_square_like = false →
      (assess_quality blur_score width height).aspect_ratio_factor = 4 / 5) ∧
    0 ≤ (assess_quality blur_score width height).sharpness_factor ∧
    13 / 30 ≤ (assess_quality blur_score width height).overall_quality := by
  have hsh : (0 : ℚ) ≤ min (blur_score / BLUR_THRESHOLD) 1 := by
    have : (0 : ℚ) ≤ blur_score / BLUR_THRESHOLD := by
      apply div_nonneg h0
      norm_num [BLUR_THRESHOLD]
    exact le_min this (by norm_num)
  refine ⟨fun hf => by simp [assess_quality, hf], fun hf => by simp [assess_quality, hf],
    hsh, ?_⟩
  simp only [assess_quality]
  have hres : (1 / 2 : ℚ) ≤ (if (validate_resolution width height).meets_min_size
      then 1 else 1 / 2) := by split <;> norm_num
  have hasp : (4 / 5 : ℚ) ≤ (if (validate_resolution width height).is_square_like
      then 1 else 4 / 5) := by split <;> norm_num
  linarith

/-- Witness for C10: a fully blurred, undersized, badly framed image
(blur score 0, 40 × 120 pixels) still scores at least 13/30. -/
theorem claim_C10_witness :
    (assess_quality 0 40 120).resolution_factor = 1 / 2 ∧
    (assess_quality 0 40 120).aspect_ratio_factor = 4 / 5 ∧
    13 / 30 ≤ (assess_quality 0 40 120).overall_quality := by
  have h := claim_C10_quality_floor 0 40 120 le_rfl
  refine ⟨h.1 ?_, h.2.1 ?_, h.2.2.2⟩
  · simp [validate_resolution, MIN_IMAGE_WIDTH, MIN_IMAGE_HEIGHT]
  · simp only [validate_resolution]
    norm_num

/-! ## Ensemble confidence
(`luna-health-app/backend/app/services/vision_analysis.py`,
`VisionAnalysisService.calculate_ensemble_confidence`). -/

/-- Result dictionary of `get_gpt4_vision_analysis`: a success flag and the
response text stored under `gpt4_analysis`. -/
structure Gpt4Result where
  success : Bool
  gpt4_analysis : String
deriving DecidableEq

/-- One entry of the ResNet prediction list (`class`, `confidence`,
`rank`). -/
structure ResnetPrediction where
  cls : String
  confidence : ℚ
  rank : ℕ
deriving DecidableEq

/-- Result dictionary of `get_resnet_prediction`: success flag, ranked
prediction list, and the optional top prediction. -/
structure ResnetResult where
  success : Bool
  predictions : List ResnetPrediction
  top_prediction : Option ResnetPrediction
deriving DecidableEq

/-- `VisionAnalysisService.calculate_ensemble_confidence`: collect 0.8 (or
0.9 for a response longer than 100 characters) when GPT-4 succeeded, the
top prediction's confidence when ResNet succeeded with a (truthy) top
prediction, and return the `np.mean` of the collected factors, or 0.3 when
none were collected. -/
def calculate_ensemble_confidence (gpt4_result : Gpt4Result)
    (resnet_result : ResnetResult) : ℚ :=
  let gpt4_factors : List ℚ :=
    if gpt4_result.success then
      [if 100 < gpt4_result.gpt4_analysis.length then 9 / 10 else 8 / 10]
    else []
  let resnet_factors : List ℚ :=
    match resnet_result.success, resnet_result.top_prediction with
    | true, some p => [p.confidence]
    | true, none => []
    | false, _ => []
  let confidence_factors := gpt4_factors ++ resnet_factors
  if confidence_factors.length ≠ 0 then
    confidence_factors.sum / (confidence_factors.length : ℚ)
  else 3 / 10

/-- A failed GPT-4 result. -/
def exGpt4Failed : Gpt4Result := ⟨false, "GPT-4 Vision analysis unavailable"⟩

/-- A short successful GPT-4 result (≤ 100 characters). -/
def exGpt4Short : Gpt4Result := ⟨true, "mild irritation visible"⟩

/-- A successful ResNet result whose top prediction has probability 1/10 —
reachable, since the softmax top-1 over 13 classes is only bounded below
by 1/13. -/
def exResnetLow : ResnetResult :=
  ⟨true, [⟨"normal_skin", 1 / 10, 1⟩], some ⟨"normal_skin", 1 / 10, 1⟩⟩

/-- A successful ResNet result with top probability 1/2. -/
def exResnetHalf : ResnetResult :=
  ⟨true, [⟨"acne", 1 / 2, 1⟩], some ⟨"acne", 1 / 2, 1⟩⟩

/-- Counterexample to claim C1 as stated: when GPT-4 fails and ResNet
succeeds with top probability 1/10, the ensemble confidence is 1/10, which
does not lie in (0.3, 1.0] even though one model succeeded. -/
theorem claim_C1_counterexample :
    calculate_ensemble_confidence exGpt4Failed exResnetLow = 1 / 10 ∧
    ¬ ((3 / 10 : ℚ) < calculate_ensemble_confidence exGpt4Failed exResnetLow) := by
  have hv : calculate_ensemble_confidence exGpt4Failed exResnetLow = 1 / 10 := by
    simp [calculate_ensemble_confidence, exGpt4Failed, exResnetLow]
  exact ⟨hv, by rw [hv]; norm_num⟩

/-- Claim C1 (amended): 0.3 exactly when both models fail; otherwise the
arithmetic mean of the collected contributions (ResNet's top probability;
0.8 for GPT-4, 0.9 above 100 characters).  The mean lies in (0.3, 1.0]
whenever the GPT-4 result succeeded (given a ResNet top probability in
[0, 1]); when only ResNet contributes, the value equals its top
probability, which need not exceed 0.3. -/
theorem claim_C1_ensemble_amended
    (g : Gpt4Result) (r : ResnetResult) (p : ResnetPrediction) :
    (g.success = false → r.success = false →
      calculate_ensemble_confidence g r = 3 / 10) ∧
    (g.success = true → r.success = false ∨ r.top_prediction = none →
      calculate_ensemble_confidence g r
          = (if 100 < g.gpt4_analysis.length then 9 / 10 else 8 / 10) ∧
        (3 / 10 : ℚ) < calculate_ensemble_confidence g r ∧
        calculate_ensemble_confidence g r ≤ 1) ∧
    (g.success = false → r.success = true → r.top_prediction = some p →
      calculate_ensemble_confidence g r = p.confidence) ∧
    (g.success = true → r.success = true → r.top_prediction = some p →
      0 ≤ p.confidence → p.confidence ≤ 1 →
      calculate_ensemble_confidence g r
          = ((if 100 < g.gpt4_analysis.length then 9 / 10 else 8 / 10)
              + p.confidence) / 2 ∧
        (3 / 10 : ℚ) < calculate_ensemble_confidence g r ∧
        calculate_ensemble_confidence g r ≤ 1) := by
  refine ⟨?_, ?_, ?_, ?_⟩
  · intro hg hr
    simp [calculate_ensemble_confidence, hg, hr]
  · intro hg hr
    have hval : calculate_ensemble_confidence g r
        = (if 100 < g.gpt4_analysis.length then 9 / 10 else 8 / 10) := by
      rcases hr with hr | hr
      · simp [calculate_ensemble_confidence, hg, hr]
      · cases hrs : r.success
        · simp [calculate_ensemble_confidence, hg, hrs]
        · simp [calculate_ensemble_confidence, hg, hrs, hr]
    refine ⟨hval, ?_, ?_⟩ <;> rw [hval] <;> split <;> norm_num
  · intro hg hr htop
    simp [calculate_ensemble_confidence, hg, hr, htop]
  · intro hg hr htop h0 h1
    have hval : calculate_ensemble_confidence g r
        = ((if 100 < g.gpt4_analysis.length then 9 / 10 else 8 / 10)
            + p.confidence) / 2 := by
      simp [calculate_ensemble_confidence, hg, hr, htop]
    refine ⟨hval, ?_, ?_⟩ <;> rw [hval] <;> split <;> linarith

/-- Witness for C1 (amended): a short successful GPT-4 result with a
ResNet top probability of 1/2 yields the mean (0.8 + 0.5) / 2 = 13/20,
inside (0.3, 1.0]. -/
theorem claim_C1_witness :
    calculate_ensemble_confidence exGpt4Short exResnetHalf = 13 / 20 ∧
    (3 / 10 : ℚ) < calculate_ensemble_confidence exGpt4Short exResnetHalf ∧
    calculate_ensemble_confidence exGpt4Short exResnetHalf ≤ 1 := by
  have h := (claim_C1_ensemble_amended exGpt4Short exResnetHalf
      ⟨"acne", 1 / 2, 1⟩).2.2.2 rfl rfl rfl (by norm_num) (by norm_num)
  refine ⟨?_, h.2.1, h.2.2⟩
  have hlen : ¬ (100 < exGpt4Short.gpt4_analysis.length) := by decide
  rw [h.1]
  simp only [hlen, if_false]
  norm_num

/-! ## Alpha-channel handling
(`ImagePreprocessor.preprocess_for_analysis` in
`luna-health-app/backend/app/services/vision_analysis.py`, and
`process_image_safely` in
`luna-health-app/backend/app/api/endpoints/health_analysis.py`).
A pixel is embedded as its list of channel values (length 3 for RGB,
length 4 for RGBA). -/

/-- The alpha step of `ImagePreprocessor.preprocess_for_analysis`: for a
4-channel array it keeps `image_array[:, :, :3]`, i.e. drops the alpha
channel; other channel counts pass through. -/
def preprocess_alpha_step (pixel : List ℚ) : List ℚ :=
  if pixel.length = 4 then pixel.take 3 else pixel

/-- Exact alpha compositing of one channel onto an opaque white (255)
background: `c * (a / 255) + 255 * (1 - a / 255)`. -/
def blend_onto_white (c a : ℚ) : ℚ := (c * a + 255 * (255 - a)) / 255

/-- The RGBA branch of `process_image_safely`: `Image.paste` with the alpha
channel as mask composites each channel onto the white background image;
non-RGBA pixels pass through here. -/
def process_image_safely_rgba (pixel : List ℚ) : List ℚ :=
  match pixel with
  | [r, g, b, a] => [blend_onto_white r a, blend_onto_white g a, blend_onto_white b a]
  | other => other

/-- Counterexample to claim C4 as stated: on the fully transparent RGBA
pixel (200, 100, 50, 0), the preprocessing pipeline keeps (200, 100, 50)
unchanged — the alpha channel is silently dropped — whereas compositing
onto an opaque white background would give (255, 255, 255). -/
theorem claim_C4_counterexample :
    preprocess_alpha_step [200, 100, 50, 0] = [200, 100, 50] ∧
    process_image_safely_rgba [200, 100, 50, 0] = [255, 255, 255] ∧
    preprocess_alpha_step [200, 100, 50, 0]
      ≠ process_image_safely_rgba [200, 100, 50, 0] := by
  refine ⟨by simp [preprocess_alpha_step], ?_, ?_⟩
  · simp [process_image_safely_rgba, blend_onto_white]
  · simp [preprocess_alpha_step, process_image_safely_rgba, blend_onto_white]

/-- Claim C4 (amended): only the endpoint's `process_image_safely`
composites RGBA input onto an opaque white background (blending every
channel with the alpha value); `ImagePreprocessor.preprocess_for_analysis`
instead silently discards the alpha channel, keeping the RGB channels
unchanged and ignoring alpha; in both cases a 4-channel input yields an
exactly 3-channel output, and on a fully opaque pixel the two agree. -/
theorem claim_C4_alpha_amended (r g b a : ℚ) :
    preprocess_alpha_step [r, g, b, a] = [r, g, b] ∧
    (preprocess_alpha_step [r, g, b, a]).length = 3 ∧
    process_image_safely_rgba [r, g, b, a]
      = [blend_onto_white r a, blend_onto_white g a, blend_onto_white b a] ∧
    (process_image_safely_rgba [r, g, b, a]).length = 3 ∧
    (a = 255 → process_image_safely_rgba [r, g, b, a] = [r, g, b]) := by
  have hb : ∀ c : ℚ, blend_onto_white c 255 = c := by
    intro c
    rw [blend_onto_white]
    field_simp
  refine ⟨by simp [preprocess_alpha_step], by simp [preprocess_alpha_step], rfl,
    rfl, ?_⟩
  intro ha
  subst ha
  simp [process_image_safely_rgba, hb]

/-- Witness for C4 (amended): the half-transparent mid-gray pixel
(100, 100, 100, 255) is kept by both paths. -/
theorem claim_C4_witness :
    preprocess_alpha_step [100, 100, 100, 255] = [100, 100, 100] ∧
    process_image_safely_rgba [100, 100, 100, 255] = [100, 100, 100] := by
  have h := claim_C4_alpha_amended 100 100 100 255
  exact ⟨h.1, h.2.2.2.2 rfl⟩

/-! ## ResNet top-k prediction
(`VisionAnalysisService.get_resnet_prediction` in
`luna-health-app/backend/app/services/vision_analysis.py`).  The model
forward and `torch.nn.functional.softmax` are library calls; the service
consumes the resulting probability vector.  A softmax output is a
probability distribution, which the main theorem takes as hypotheses
(entries nonnegative, summing to 1).  `torch.topk(·, 3)` returns the three
largest values with their indices in descending order; it is embedded as a
stable descending insertion sort over (probability, class-index) pairs
followed by `take 3`. -/

/-- `settings.SKIN_CONDITIONS + settings.DISCHARGE_CONDITIONS`, the class
list over which the softmax runs (13 classes). -/
def medical_classes : List String :=
  ["normal_skin", "acne", "eczema", "psoriasis",
   "melanoma", "basal_cell_carcinoma", "seborrheic_keratosis",
   "normal_white", "normal_clear", "yeast_infection",
   "bacterial_vaginosis", "trichomoniasis", "menstrual_blood"]

/-- Inserts a (probability, index) pair into a descending-sorted list,
after all entries with an equal or larger probability (stable order). -/
def insertDesc (a : ℚ × ℕ) : List (ℚ × ℕ) → List (ℚ × ℕ)
  | [] => [a]
  | b :: l => if b.1 < a.1 then a :: b :: l else b :: insertDesc a l

/-- Stable descending sort on (probability, index) pairs. -/
def sortDesc (l : List (ℚ × ℕ)) : List (ℚ × ℕ) := l.foldr insertDesc []

/-- `torch.topk(probabilities, k)`: the `k` largest probabilities in
descending order, paired with their class indices. -/
def topk (probabilities : List ℚ) (k : ℕ) : List (ℚ × ℕ) :=
  (sortDesc (probabilities.enum.map (fun x => (x.2, x.1)))).take k

/-- `VisionAnalysisService.get_resnet_prediction` on the softmax
probability vector: top-3 selection, then the ranked prediction
dictionaries (`rank` is 1-based), with the first as `top_prediction`. -/
def get_resnet_prediction (probabilities : List ℚ) : ResnetResult :=
  let top := topk probabilities 3
  let predictions := top.enum.map
    (fun x => ResnetPrediction.mk (medical_classes.getD x.2.2 "") x.2.1 (x.1 + 1))
  { success := true
    predictions := predictions
    top_prediction := predictions.head? }

theorem insertDesc_perm (a : ℚ × ℕ) (l : List (ℚ × ℕ)) :
    (insertDesc a l).Perm (a :: l) := by
  induction l with
  | nil => exact List.Perm.refl _
  | cons b l ih =>
    simp only [insertDesc]
    split
    · exact List.Perm.refl _
    · exact (List.Perm.cons b ih).trans (List.Perm.swap a b l)

theorem sortDesc_perm (l : List (ℚ × ℕ)) : (sortDesc l).Perm l := by
  induction l with
  | nil => exact List.Perm.refl _
  | cons a l ih =>
    exact (insertDesc_perm a (sortDesc l)).trans (List.Perm.cons a ih)

theorem pairwise_insertDesc (a : ℚ × ℕ) (l : List (ℚ × ℕ))
    (h : l.Pairwise (fun x y => y.1 ≤ x.1)) :
    (insertDesc a l).Pairwise (fun x y => y.1 ≤ x.1) := by
  induction l with
  | nil => simp [insertDesc]
  | cons b l ih =>
    rw [List.pairwise_cons] at h
    obtain ⟨hb, hl⟩ := h
    simp only [insertDesc]
    split
    case isTrue hlt =>
      refine List.pairwise_cons.mpr ⟨?_, List.pairwise_cons.mpr ⟨hb, hl⟩⟩
      intro y hy
      rcases List.mem_cons.mp hy with rfl | hy
      · exact le_of_lt hlt
      · exact le_trans (hb y hy) (le_of_lt hlt)
    case isFalse hge =>
      refine List.pairwise_cons.mpr ⟨?_, ih hl⟩
      intro y hy
      rcases List.mem_cons.mp ((insertDesc_perm a l).mem_iff.mp hy) with rfl | hy2
      · exact le_of_not_lt hge
      · exact hb y hy2

theorem pairwise_sortDesc (l : List (ℚ × ℕ)) :
    (sortDesc l).Pairwise (fun x y => y.1 ≤ x.1) := by
  induction l with
  | nil => simp [sortDesc]
  | cons a l ih => exact pairwise_insertDesc a (sortDesc l) ih

/-- Claim C8: on a softmax distribution over the (13-element) class list,
`get_resnet_prediction` returns exactly 3 ranked predictions with
non-increasing confidences, each confidence in `[0, 1]`, and the three
returned confidences summing to at most 1. -/
theorem claim_C8_resnet_topk (probabilities : List ℚ)
    (hnn : ∀ p ∈ probabilities, 0 ≤ p)
    (hsum : probabilities.sum = 1)
    (hlen : 3 ≤ probabilities.length) :
    (get_resnet_prediction probabilities).predictions.length = 3 ∧
    ((get_resnet_prediction probabilities).predictions.map
        (fun q => q.confidence)).Pairwise (fun a b => b ≤ a) ∧
    (∀ c ∈ (get_resnet_prediction probabilities).predictions.map
        (fun q => q.confidence), 0 ≤ c ∧ c ≤ 1) ∧
    ((get_resnet_prediction probabilities).predictions.map
        (fun q => q.confidence)).sum ≤ 1 := by
  have hLfst : (probabilities.enum.map (fun x => (x.2, x.1))).map Prod.fst
      = probabilities := by
    rw [List.map_map]
    exact List.enum_map_snd probabilities
  have hSperm := sortDesc_perm (probabilities.enum.map (fun x => (x.2, x.1)))
  have hSpair := pairwise_sortDesc (probabilities.enum.map (fun x => (x.2, x.1)))
  have hTsub := List.take_sublist 3
    (sortDesc (probabilities.enum.map (fun x => (x.2, x.1))))
  have hTlen : (topk probabilities 3).length = 3 := by
    rw [topk, List.length_take, hSperm.length_eq, List.length_map,
      List.enum_length]
    exact Nat.min_eq_left hlen
  have hconfs : (get_resnet_prediction probabilities).predictions.map
      (fun q => q.confidence) = (topk probabilities 3).map Prod.fst := by
    simp only [get_resnet_prediction, List.map_map]
    have hcomp : ((fun q : ResnetPrediction => q.confidence) ∘
        (fun x : ℕ × (ℚ × ℕ) =>
          ResnetPrediction.mk (medical_classes.getD x.2.2 "") x.2.1 (x.1 + 1)))
        = Prod.fst ∘ Prod.snd := rfl
    rw [hcomp, ← List.map_map, List.enum_map_snd]
  have hmapperm : ((sortDesc (probabilities.enum.map
      (fun x => (x.2, x.1)))).map Prod.fst).Perm probabilities := by
    have := hSperm.map Prod.fst
    rwa [hLfst] at this
  refine ⟨?_, ?_, ?_, ?_⟩
  · simp only [get_resnet_prediction, List.length_map, List.enum_length]
    exact hTlen
  · rw [hconfs]
    refine List.pairwise_map.mpr ?_
    exact (hSpair.sublist hTsub)
  · intro c hc
    rw [hconfs] at hc
    obtain ⟨x, hxT, rfl⟩ := List.mem_map.mp hc
    have hxL : x ∈ probabilities.enum.map (fun x => (x.2, x.1)) :=
      hSperm.mem_iff.mp (hTsub.subset hxT)
    have hxp : x.1 ∈ probabilities := by
      rw [← hLfst]
      exact List.mem_map_of_mem Prod.fst hxL
    exact ⟨hnn _ hxp, hsum ▸ List.single_le_sum hnn _ hxp⟩
  · rw [hconfs]
    have hsnn : ∀ a ∈ (sortDesc (probabilities.enum.map
        (fun x => (x.2, x.1)))).map Prod.fst, 0 ≤ a :=
      fun a ha => hnn a (hmapperm.mem_iff.mp ha)
    have hle := List.Sublist.sum_le_sum (hTsub.map Prod.fst) hsnn
    have heq := hmapperm.sum_eq
    simp only [topk]
    rw [heq, hsum] at hle
    exact hle

/-- A concrete softmax distribution over the 13 classes. -/
def exProbs : List ℚ := [1/4, 1/4, 1/4, 1/4, 0, 0, 0, 0, 0, 0, 0, 0, 0]

/-- Witness for C8: the top-3 prediction structure on `exProbs`. -/
theorem claim_C8_witness :
    (get_resnet_prediction exProbs).predictions.length = 3 ∧
    ((get_resnet_prediction exProbs).predictions.map
        (fun q => q.confidence)).sum ≤ 1 := by
  have h := claim_C8_resnet_topk exProbs
    (by
      intro p hp
      simp [exProbs] at hp
      rcases hp with h | h <;> subst h
      · norm_num
      · norm_num)
    (by simp [exProbs]; norm_num)
    (by simp [exProbs])
  exact ⟨h.1, h.2.2.2⟩

/-! ## Bounding-box merging
(`PatternDetectionService.merge_nearby_boxes` in
`backend/app/services/pattern_detection_service.py`).  The source iterates
over the boxes with a `used` flag array: each not-yet-used box `bbox1`
starts a group and absorbs every later unused box whose center lies within
`distance_threshold` of `bbox1`'s center — the distance test is always
against the group's first box, never against other group members. -/

/-- Center `(x + w // 2, y + h // 2)` of a box, with Python floor
division. -/
def boxCenter (b : Box) : ℤ × ℤ := (b.x + Int.fdiv b.w 2, b.y + Int.fdiv b.h 2)

/-- The merge test `np.sqrt((cx1-cx2)**2 + (cy1-cy2)**2) <
distance_threshold`, stated on squares: for the nonnegative thresholds the
service passes, comparing the (monotone) square root against the threshold
is the same as comparing the squared distance against the squared
threshold. -/
def centersClose (distance_threshold : ℤ) (b1 b2 : Box) : Bool :=
  decide (((boxCenter b1).1 - (boxCenter b2).1) ^ 2
    + ((boxCenter b1).2 - (boxCenter b2).2) ^ 2 < distance_threshold ^ 2)

/-- Tight bounding rectangle of a group: component-wise min of the `x`/`y`
corners and max of the opposite corners, returned as `(min_x, min_y,
max_x - min_x, max_y - min_y)`. -/
def tightRect : List Box → Box
  | [] => ⟨0, 0, 0, 0⟩
  | b :: rest =>
    let min_x := (rest.map Box.x).foldl min b.x
    let min_y := (rest.map Box.y).foldl min b.y
    let max_x := (rest.map (fun c => c.x + c.w)).foldl max (b.x + b.w)
    let max_y := (rest.map (fun c => c.y + c.h)).foldl max (b.y + b.h)
    ⟨min_x, min_y, max_x - min_x, max_y - min_y⟩

/-- The grouping pass of `merge_nearby_boxes`, with an explicit fuel
argument (the list length suffices) standing in for the `used` array: the
first unused box seeds a group holding every remaining box close to the
seed, and the scan continues on the rest. -/
def collectGroupsAux (distance_threshold : ℤ) : ℕ → List Box → List (List Box)
  | _, [] => []
  | 0, _ :: _ => []
  | fuel + 1, b :: rest =>
    (b :: rest.filter (fun c => centersClose distance_threshold b c))
      :: collectGroupsAux distance_threshold fuel
          (rest.filter (fun c => !(centersClose distance_threshold b c)))

/-- The groups formed by the `used`-array scan of `merge_nearby_boxes`. -/
def collectGroups (distance_threshold : ℤ) (bboxes : List Box) :
    List (List Box) :=
  collectGroupsAux distance_threshold bboxes.length bboxes

/-- `PatternDetectionService.merge_nearby_boxes`: lists of at most one box
pass through; otherwise each group of size one is emitted unchanged and
every larger group is replaced by its tight bounding rectangle. -/
def merge_nearby_boxes (bboxes : List Box) (distance_threshold : ℤ) :
    List Box :=
  if bboxes.length ≤ 1 then bboxes
  else
    (collectGroups distance_threshold bboxes).map
      (fun group =>
        match group with
        | [b] => b
        | g => tightRect g)

/-- Modelled from the spec sentence of the claim: single-linkage
clustering over box centers.  Boxes are folded into connected components
of the closeness graph (a new box merges every component that contains
some box close to it), and each component is replaced by its tight
bounding rectangle. -/
def singleLinkageComponents (distance_threshold : ℤ) (bboxes : List Box) :
    List (List Box) :=
  bboxes.foldl
    (fun comps b =>
      (b :: (comps.filter
          (fun comp => comp.any (centersClose distance_threshold b))).flatten)
        :: comps.filter
            (fun comp => !(comp.any (centersClose distance_threshold b))))
    []

/-- Single-linkage merged boxes, following the claim's wording. -/
def singleLinkageMerge (distance_threshold : ℤ) (bboxes : List Box) :
    List Box :=
  (singleLinkageComponents distance_threshold bboxes).map tightRect

/-- Three collinear boxes whose centers are 25 px apart pairwise along the
chain, but 50 px apart at the ends. -/
def exChainBoxes : List Box := [⟨0, 0, 2, 2⟩, ⟨25, 0, 2, 2⟩, ⟨50, 0, 2, 2⟩]

/-- Counterexample to claim C5 as stated: the three chain boxes are
pairwise connected through the middle box (successive center distances 25
< 30), so single-linkage clustering puts all three into one merged group
with tight rectangle `(0, 0, 52, 2)`; `merge_nearby_boxes` instead tests
only against each group's first box and returns two boxes. -/
theorem claim_C5_counterexample :
    centersClose 30 ⟨0, 0, 2, 2⟩ ⟨25, 0, 2, 2⟩ = true ∧
    centersClose 30 ⟨25, 0, 2, 2⟩ ⟨50, 0, 2, 2⟩ = true ∧
    centersClose 30 ⟨0, 0, 2, 2⟩ ⟨50, 0, 2, 2⟩ = false ∧
    merge_nearby_boxes exChainBoxes 30 = [⟨0, 0, 27, 2⟩, ⟨50, 0, 2, 2⟩] ∧
    singleLinkageMerge 30 exChainBoxes = [⟨0, 0, 52, 2⟩] ∧
    merge_nearby_boxes exChainBoxes 30 ≠ singleLinkageMerge 30 exChainBoxes := by
  decide

theorem collectGroupsAux_flatten_perm (distance_threshold : ℤ) (fuel : ℕ) :
    ∀ l : List Box, l.length ≤ fuel →
      ((collectGroupsAux distance_threshold fuel l).flatten).Perm l := by
  induction fuel with
  | zero =>
    intro l hl
    rw [Nat.le_zero, List.length_eq_zero] at hl
    subst hl
    simp [collectGroupsAux]
  | succ fuel ih =>
    intro l hl
    match l with
    | [] => simp [collectGroupsAux]
    | b :: rest =>
      simp only [collectGroupsAux, List.flatten_cons, List.cons_append]
      have hrest : rest.length ≤ fuel := by
        simpa [Nat.succ_le_succ_iff] using hl
      have hrem : (rest.filter
          (fun c => !(centersClose distance_threshold b c))).length ≤ fuel :=
        le_trans (List.length_filter_le _ _) hrest
      refine List.Perm.cons b ?_
      refine (List.Perm.append_left _ (ih _ hrem)).trans ?_
      exact List.filter_append_perm _ rest

theorem collectGroupsAux_seed_close (distance_threshold : ℤ) (fuel : ℕ) :
    ∀ l : List Box, l.length ≤ fuel →
      ∀ g ∈ collectGroupsAux distance_threshold fuel l,
        ∃ s tl, g = s :: tl ∧
          ∀ b ∈ tl, centersClose distance_threshold s b = true := by
  induction fuel with
  | zero =>
    intro l hl
    rw [Nat.le_zero, List.length_eq_zero] at hl
    subst hl
    simp [collectGroupsAux]
  | succ fuel ih =>
    intro l hl
    match l with
    | [] => simp [collectGroupsAux]
    | b :: rest =>
      simp only [collectGroupsAux, List.mem_cons]
      rintro g (rfl | hg)
      · exact ⟨b, _, rfl, fun c hc => List.of_mem_filter hc⟩
      · have hrest : rest.length ≤ fuel := by
          simpa [Nat.succ_le_succ_iff] using hl
        have hrem : (rest.filter
            (fun c => !(centersClose distance_threshold b c))).length ≤ fuel :=
          le_trans (List.length_filter_le _ _) hrest
        exact ih _ hrem g hg

theorem tightRect_singleton (b : Box) : tightRect [b] = b := by
  cases b with
  | mk x y w h => simp [tightRect]

/-- Claim C5 (amended): `merge_nearby_boxes` performs one-pass leader
clustering over box centers — scanning boxes in input order, each
not-yet-grouped box seeds a group absorbing every remaining ungrouped box
whose center lies strictly within the threshold of the seed's center
(membership is tested against the seed only, so chains of nearby boxes do
not propagate) — and each output box is the tight bounding rectangle
(component-wise min/max of corners) of its group, the groups partitioning
the input boxes. -/
theorem claim_C5_merge_amended (distance_threshold : ℤ) (bboxes : List Box)
    (h2 : 2 ≤ bboxes.length) :
    merge_nearby_boxes bboxes distance_threshold
      = (collectGroups distance_threshold bboxes).map tightRect ∧
    ((collectGroups distance_threshold bboxes).flatten).Perm bboxes ∧
    (∀ g ∈ collectGroups distance_threshold bboxes,
      ∃ s tl, g = s :: tl ∧
        ∀ b ∈ tl, centersClose distance_threshold s b = true) := by
  have hfn : (fun group : List Box =>
      match group with
      | [b] => b
      | g => tightRect g) = tightRect := by
    funext g
    match g with
    | [] => rfl
    | [b] => exact (tightRect_singleton b).symm
    | a :: c :: rest => rfl
  have hnot : ¬ bboxes.length ≤ 1 := by omega
  refine ⟨?_, ?_, ?_⟩
  · simp only [merge_nearby_boxes, hnot, if_false, hfn]
  · exact collectGroupsAux_flatten_perm distance_threshold bboxes.length bboxes
      le_rfl
  · exact collectGroupsAux_seed_close distance_threshold bboxes.length bboxes
      le_rfl

/-- Witness for C5 (amended): the amended description instantiated on the
three chain boxes. -/
theorem claim_C5_witness :
    merge_nearby_boxes exChainBoxes 30
      = (collectGroups 30 exChainBoxes).map tightRect ∧
    ((collectGroups 30 exChainBoxes).flatten).Perm exChainBoxes := by
  have h := claim_C5_merge_amended 30 exChainBoxes (by decide)
  exact ⟨h.1, h.2.1⟩

end LunaHealth
